import Mathlib

/-!
Shallow embedding of the positioning-and-transition core of
react-native-copilot: the geometry computation of `_animateMove`
(CopilotModal), the `sanitize` pipeline, and the Tour Controller
operations of `CopilotProvider`.

JavaScript numbers on the finite path are modelled as rationals; the
NaN/undefined-sensitive sanitization path is modelled with explicit
`JSVal` values over association-list objects, mirroring the dynamic
`Object.keys` iteration of `floorify` / `removeNan`.
-/

/-- Target rectangle in container-local coordinates (`LayoutRectangle`). -/
structure Rect where
  x : ℚ
  y : ℚ
  width : ℚ
  height : ℚ
deriving DecidableEq

/-- Safe-area insets as provided by `useSafeAreaInsets`. -/
structure Insets where
  top : ℚ
  bottom : ℚ
  left : ℚ
  right : ℚ
deriving DecidableEq

/-- Measured container layout (`newMeasuredLayout`); only width and height
are read by the geometry computation. -/
structure SizeQ where
  width : ℚ
  height : ℚ
deriving DecidableEq

/-- Static configuration read by `_animateMove`: the margin, the arrow size,
and the badge radius/diameter constants imported from `style`. -/
structure Config where
  margin : ℚ
  arrowSize : ℚ
  stepNumberRadius : ℚ
  stepNumberDiameter : ℚ
deriving DecidableEq

/-- Vertical anchor of the tooltip. -/
inductive VPos where
  | bottom
  | top
deriving DecidableEq

/-- Horizontal anchor of the tooltip. -/
inductive HPos where
  | left
  | right
deriving DecidableEq

/-- Badge (step number) horizontal position, CopilotModal lines 185-192:
default to `rect.x - STEP_NUMBER_RADIUS`; if negative, reposition to
`rect.x + rect.width - STEP_NUMBER_RADIUS` and cap at
`layout.width - STEP_NUMBER_DIAMETER`. -/
def stepNumberLeftOf (cfg : Config) (layout : SizeQ) (rect : Rect) : ℚ :=
  let l := rect.x - cfg.stepNumberRadius
  if l < 0 then
    let l' := rect.x + rect.width - cfg.stepNumberRadius
    if l' > layout.width - cfg.stepNumberDiameter then
      layout.width - cfg.stepNumberDiameter
    else l'
  else l

/-- Vertical anchor decision, CopilotModal lines 194-224. -/
def verticalPositionOf (cfg : Config) (knownHeight : ℚ) (layout : SizeQ)
    (insets : Insets) (rect : Rect) : VPos :=
  let centerY := rect.y + rect.height / 2
  let relativeToTop := centerY
  let relativeToBottom := |centerY - layout.height|
  let spaceAbove := rect.y - insets.top - cfg.margin
  let spaceBelow :=
    layout.height - (rect.y + rect.height) - insets.bottom - cfg.margin
  if knownHeight > 0 then
    if spaceBelow ≥ knownHeight then .bottom
    else if spaceAbove ≥ knownHeight then .top
    else if spaceBelow ≥ spaceAbove then .bottom
    else .top
  else if relativeToBottom > relativeToTop then .bottom
  else .top

/-- Horizontal anchor decision, CopilotModal lines 199-202 and 225-226. -/
def horizontalPositionOf (layout : SizeQ) (rect : Rect) : HPos :=
  let centerX := rect.x + rect.width / 2
  let relativeToLeft := centerX
  let relativeToRight := |centerX - layout.width|
  if relativeToLeft > relativeToRight then .left else .right

/-- Value assigned to `tooltip.top` in the bottom case, lines 233-240. -/
def tooltipTopOf (cfg : Config) (knownHeight : ℚ) (layout : SizeQ)
    (insets : Insets) (rect : Rect) : ℚ :=
  let idealTop := rect.y + rect.height + cfg.margin
  let maxTop :=
    if knownHeight > 0 then
      layout.height - knownHeight - insets.bottom - cfg.margin
    else idealTop
  max (min idealTop maxTop) (insets.top + cfg.margin)

/-- Value assigned to `tooltip.bottom` in the top case, lines 246-255. -/
def tooltipBottomOf (cfg : Config) (knownHeight : ℚ) (layout : SizeQ)
    (insets : Insets) (rect : Rect) : ℚ :=
  let b := layout.height - (rect.y - cfg.margin)
  let minBottom := cfg.margin + insets.bottom
  let maxBottom :=
    if knownHeight > 0 then
      layout.height - knownHeight - insets.top - cfg.margin
    else b
  max (min b maxBottom) minBottom

/-- Value assigned to `tooltip.right` in the left-anchored case,
lines 263-269. -/
def tooltipRightOf (cfg : Config) (layout : SizeQ) (rect : Rect) : ℚ :=
  let r := max (layout.width - (rect.x + rect.width)) 0
  if r = 0 then r + cfg.margin else r

/-- Value assigned to `tooltip.left` in the right-anchored case,
lines 272-275. -/
def tooltipLeftOf (cfg : Config) (rect : Rect) : ℚ :=
  let l := max rect.x 0
  if l = 0 then l + cfg.margin else l

/-- Geometry emitted by one `_animateMove` run on finite inputs: tooltip and
arrow styles (values as computed at assignment time, before the integer
flooring of `sanitize`), badge position, and the mask rect.  The mask
coordinates reflect lines 296-301, which run after `sanitize(rect)` floored
the rect fields in place. -/
structure GeomOut where
  stepNumberLeft : ℚ
  verticalPosition : VPos
  horizontalPosition : HPos
  tooltipTop : Option ℚ
  tooltipBottom : Option ℚ
  tooltipLeft : Option ℚ
  tooltipRight : Option ℚ
  maxWidth : ℚ
  arrowTop : Option ℚ
  arrowBottom : Option ℚ
  arrowLeft : Option ℚ
  arrowRight : Option ℚ
  maskX : ℚ
  maskY : ℚ
  maskWidth : ℚ
  maskHeight : ℚ
deriving DecidableEq

/-- Geometry computation of `_animateMove` (CopilotModal lines 185-301) on
finite inputs, after the optional Android status-bar adjustment has been
applied to `rect`. -/
def geomOf (cfg : Config) (knownHeight : ℚ) (layout : SizeQ)
    (insets : Insets) (rect : Rect) : GeomOut :=
  let v := verticalPositionOf cfg knownHeight layout insets rect
  let h := horizontalPositionOf layout rect
  let tTop : Option ℚ :=
    match v with
    | .bottom => some (tooltipTopOf cfg knownHeight layout insets rect)
    | .top => none
  let tBottom : Option ℚ :=
    match v with
    | .bottom => none
    | .top => some (tooltipBottomOf cfg knownHeight layout insets rect)
  let tRight : Option ℚ :=
    match h with
    | .left => some (tooltipRightOf cfg layout rect)
    | .right => none
  let tLeft : Option ℚ :=
    match h with
    | .left => none
    | .right => some (tooltipLeftOf cfg rect)
  { stepNumberLeft := stepNumberLeftOf cfg layout rect
    verticalPosition := v
    horizontalPosition := h
    tooltipTop := tTop
    tooltipBottom := tBottom
    tooltipLeft := tLeft
    tooltipRight := tRight
    maxWidth :=
      match h with
      | .left => layout.width - tooltipRightOf cfg layout rect - cfg.margin
      | .right => layout.width - tooltipLeftOf cfg rect - cfg.margin
    arrowTop := tTop.map (fun t => t - cfg.arrowSize * 2)
    arrowBottom := tBottom.map (fun b => b - cfg.arrowSize * 2)
    arrowLeft := tLeft.map (fun l => l + cfg.margin)
    arrowRight := tRight.map (fun r => r + cfg.margin)
    maskX := (⌊max (⌊rect.x⌋ : ℚ) 0⌋ : ℚ)
    maskY := (⌊max (⌊rect.y⌋ : ℚ) 0⌋ : ℚ)
    maskWidth := (⌊rect.width⌋ : ℚ)
    maskHeight := (⌊rect.height⌋ : ℚ) }

/-- Spec Scenario B check: target `{x:100, y:50, w:80, h:40}`, container
`400x800`, zero insets, margin 8, known height 300: bottom is confirmed and
`tooltip.top = 98`. -/
theorem scenarioB_check :
    (geomOf ⟨8, 4, 14, 28⟩ 300 ⟨400, 800⟩ ⟨0, 0, 0, 0⟩
        ⟨100, 50, 80, 40⟩).tooltipTop = some 98 := by
  simp only [geomOf, verticalPositionOf, horizontalPositionOf, tooltipTopOf]
  norm_num

/-- Spec Scenario C check: target `{x:100, y:750, w:80, h:40}`, container
`400x800`, known height 100: top is chosen. -/
theorem scenarioC_check :
    (geomOf ⟨8, 4, 14, 28⟩ 100 ⟨400, 800⟩ ⟨0, 0, 0, 0⟩
        ⟨100, 750, 80, 40⟩).verticalPosition = VPos.top := by
  simp only [geomOf, verticalPositionOf]
  norm_num

theorem geomOf_verticalPosition (cfg : Config) (kh : ℚ) (layout : SizeQ)
    (insets : Insets) (rect : Rect) :
    (geomOf cfg kh layout insets rect).verticalPosition =
      verticalPositionOf cfg kh layout insets rect := rfl

theorem geomOf_stepNumberLeft (cfg : Config) (kh : ℚ) (layout : SizeQ)
    (insets : Insets) (rect : Rect) :
    (geomOf cfg kh layout insets rect).stepNumberLeft =
      stepNumberLeftOf cfg layout rect := rfl

/-- C2 (confirmed): vertical placement decision.  With a known tooltip
height `kh > 0` the anchor is bottom iff the tooltip fits below
(`spaceBelow ≥ kh`), or it fits neither below nor above and below has at
least as much space; with the height unknown, bottom is chosen exactly when
the target center's distance to the container's bottom edge,
`|centerY - containerHeight|`, exceeds its distance to the top edge,
`centerY` (the quantities `relativeToBottom` / `relativeToTop` of the code
and of spec Scenario A). -/
theorem c2_vertical_decision (cfg : Config) (kh : ℚ) (layout : SizeQ)
    (insets : Insets) (rect : Rect) :
    (geomOf cfg kh layout insets rect).verticalPosition = VPos.bottom ↔
      (if kh > 0 then
        layout.height - (rect.y + rect.height) - insets.bottom - cfg.margin ≥ kh ∨
          (rect.y - insets.top - cfg.margin < kh ∧
            layout.height - (rect.y + rect.height) - insets.bottom - cfg.margin ≥
              rect.y - insets.top - cfg.margin)
      else
        |rect.y + rect.height / 2 - layout.height| > rect.y + rect.height / 2) := by
  rw [geomOf_verticalPosition]
  simp only [verticalPositionOf]
  split_ifs with h1 h2 h3 h4 h5
  · simp [h2]
  · simp [h2, not_lt.mpr h3]
  · simp [h4, not_le.mp h3]
  · simp [h2, h4]
  · simp [h5]
  · simp [h5]

/-- C9 (confirmed): the badge left coordinate defaults to
`rect.x - STEP_NUMBER_RADIUS`; when that is negative it is repositioned to
`rect.x + rect.width - STEP_NUMBER_RADIUS`, capped at
`containerWidth - STEP_NUMBER_DIAMETER` (so in the repositioned case the
badge never exceeds that bound); no clamping happens in the default case. -/
theorem c9_badge_left (cfg : Config) (kh : ℚ) (layout : SizeQ)
    (insets : Insets) (rect : Rect) :
    (geomOf cfg kh layout insets rect).stepNumberLeft =
      if rect.x - cfg.stepNumberRadius < 0 then
        min (rect.x + rect.width - cfg.stepNumberRadius)
          (layout.width - cfg.stepNumberDiameter)
      else rect.x - cfg.stepNumberRadius := by
  rw [geomOf_stepNumberLeft]
  simp only [stepNumberLeftOf]
  split_ifs with h1 h2
  · exact (min_eq_right (le_of_lt h2)).symm
  · exact (min_eq_left (not_lt.mp h2)).symm
  · rfl

/-- C1 counterexample: with container height 100, zero insets, margin 8 and
known tooltip height 200, the emitted `tooltip.top` is 8 but the tooltip's
bottom edge `top + knownHeight = 208` exceeds
`containerHeight - insets.bottom - margin = 92`: the claimed containment
fails as universally stated. -/
theorem c1_counterexample :
    (geomOf ⟨8, 4, 14, 28⟩ 200 ⟨100, 100⟩ ⟨0, 0, 0, 0⟩
        ⟨0, 0, 10, 10⟩).tooltipTop = some 8 ∧
      ¬((8 : ℚ) + 200 ≤ 100 - 0 - 8) := by
  constructor
  · simp only [geomOf, verticalPositionOf, tooltipTopOf]
    norm_num
  · norm_num

/-- C1 amended (proved): for every target rect, container size, insets and
margin, when the known tooltip height is positive and additionally fits into
the safe area (`insets.top + margin + knownHeight ≤ containerHeight -
insets.bottom - margin`), the computed vertical span of the tooltip — the
value assigned to `tooltip.top` through `top + knownHeight` in the bottom
case, or the span implied by the emitted `tooltip.bottom` in the top case —
lies within `[insets.top + margin, containerHeight - insets.bottom -
margin]`.  Without the fitting condition the safe-area floor wins over
`maxTop` and the span can overflow (see the counterexample). -/
theorem c1_safe_area (cfg : Config) (kh : ℚ) (layout : SizeQ)
    (insets : Insets) (rect : Rect) (hkh : 0 < kh)
    (hfit : insets.top + cfg.margin + kh ≤
      layout.height - insets.bottom - cfg.margin) :
    (∀ t, (geomOf cfg kh layout insets rect).tooltipTop = some t →
        insets.top + cfg.margin ≤ t ∧
          t + kh ≤ layout.height - insets.bottom - cfg.margin) ∧
      (∀ b, (geomOf cfg kh layout insets rect).tooltipBottom = some b →
        insets.top + cfg.margin ≤ layout.height - b - kh ∧
          layout.height - b ≤ layout.height - insets.bottom - cfg.margin) := by
  constructor
  · intro t ht
    cases hv : verticalPositionOf cfg kh layout insets rect with
    | top => simp [geomOf, hv] at ht
    | bottom =>
      simp only [geomOf, hv, Option.some.injEq] at ht
      subst ht
      simp only [tooltipTopOf]
      rw [if_pos hkh]
      have hm : min (rect.y + rect.height + cfg.margin)
          (layout.height - kh - insets.bottom - cfg.margin) ≤
          layout.height - kh - insets.bottom - cfg.margin := min_le_right _ _
      have hf : insets.top + cfg.margin ≤
          layout.height - kh - insets.bottom - cfg.margin := by linarith
      have hmax := max_le hm hf
      exact ⟨le_max_right _ _, by linarith⟩
  · intro b hb
    cases hv : verticalPositionOf cfg kh layout insets rect with
    | bottom => simp [geomOf, hv] at hb
    | top =>
      simp only [geomOf, hv, Option.some.injEq] at hb
      subst hb
      simp only [tooltipBottomOf]
      rw [if_pos hkh]
      have hm : min (layout.height - (rect.y - cfg.margin))
          (layout.height - kh - insets.top - cfg.margin) ≤
          layout.height - kh - insets.top - cfg.margin := min_le_right _ _
      have hf : cfg.margin + insets.bottom ≤
          layout.height - kh - insets.top - cfg.margin := by linarith
      have hmax := max_le hm hf
      have hlow := le_max_right (min (layout.height - (rect.y - cfg.margin))
        (layout.height - kh - insets.top - cfg.margin))
        (cfg.margin + insets.bottom)
      exact ⟨by linarith, by linarith⟩

/-- C1 amended, witness: Scenario-B-like input (`tooltip.top = 98`, known
height 50): the span `[98, 148]` lies within `[8, 792]`. -/
theorem c1_safe_area_witness :
    (0 : ℚ) + 8 ≤ 98 ∧ (98 : ℚ) + 50 ≤ 800 - 0 - 8 :=
  (c1_safe_area ⟨8, 4, 14, 28⟩ 50 ⟨400, 800⟩ ⟨0, 0, 0, 0⟩ ⟨100, 50, 80, 40⟩
    (by norm_num) (by norm_num)).1 98
    (by simp only [geomOf, verticalPositionOf, tooltipTopOf]; norm_num)

/-- Snapshot stored in `currentRectRef` at the entry of `_animateMove`
(lines 175-179): a copy of the rect taken before any mutation, the current
step name, and the tooltip height the computation will use. -/
structure Snapshot where
  rect : Rect
  stepName : Option String
  calculatedWithHeight : ℚ
deriving DecidableEq

/-- Ambient modal state read and written by `_animateMove`: the measured
container layout (`layoutRef`), the safe-area insets, the last reported
tooltip height (`tooltipHeightRef`), the current step name, the snapshot in
`currentRectRef`, and the last published geometry (the tooltip/arrow/mask
state setters). -/
structure ModalState where
  layout : SizeQ
  insets : Insets
  tooltipHeight : ℚ
  currentStepName : Option String
  currentRect : Option Snapshot
  published : Option GeomOut
deriving DecidableEq

/-- One `_animateMove` invocation (lines 173-322) on finite inputs: stores
the snapshot (before any mutation of the rect), applies the Android
status-bar adjustment when requested, computes the geometry from the
ambient layout, insets and known tooltip height, and publishes it.  Returns
the new state together with the emitted geometry. -/
def animateMoveStep (cfg : Config) (adjustY : Bool) (statusBarHeight : ℚ)
    (s : ModalState) (rect : Rect) : ModalState × GeomOut :=
  let snap : Snapshot :=
    { rect := rect, stepName := s.currentStepName,
      calculatedWithHeight := s.tooltipHeight }
  let rect' := if adjustY then { rect with y := rect.y - statusBarHeight } else rect
  let out := geomOf cfg s.tooltipHeight s.layout s.insets rect'
  ({ s with currentRect := some snap, published := some out }, out)

/-- C7 (confirmed): invoking the geometry computation twice in a row with an
identical target rect (and hence the identical known tooltip height, which
`_animateMove` reads from state it never writes) yields identical output
geometry — tooltip, arrow, badge position and mask — with no positional
drift: the first invocation writes only `currentRectRef` and the published
styles, none of which the computation reads. -/
theorem c7_geometry_idempotent (cfg : Config) (adjustY : Bool)
    (statusBarHeight : ℚ) (s : ModalState) (rect : Rect) :
    (animateMoveStep cfg adjustY statusBarHeight
        (animateMoveStep cfg adjustY statusBarHeight s rect).1 rect).2 =
      (animateMoveStep cfg adjustY statusBarHeight s rect).2 := rfl

/-- JavaScript runtime values occurring in the sanitized records: numbers
(NaN modelled as `num none`), strings (arrow colors, `position`), and
`undefined`. -/
inductive JSVal where
  | num : Option ℚ → JSVal
  | str : String → JSVal
  | jsUndefined : JSVal
deriving DecidableEq

/-- JavaScript object modelled as an ordered key/value list, matching the
`Object.keys` iteration of `floorify` / `removeNan`. -/
abbrev JSObj := List (String × JSVal)

/-- Presence-aware property lookup. -/
def objGet (obj : JSObj) (k : String) : Option JSVal :=
  match obj with
  | [] => none
  | kv :: tl => if kv.1 = k then some kv.2 else objGet tl k

/-- JS property read: an absent key yields `undefined`. -/
def getVal (obj : JSObj) (k : String) : JSVal := (objGet obj k).getD .jsUndefined

/-- JS property assignment: overwrites the value under an existing key,
appends the key otherwise. -/
def setVal (obj : JSObj) (k : String) (v : JSVal) : JSObj :=
  if (objGet obj k).isSome then
    obj.map (fun kv => if kv.1 = k then (k, v) else kv)
  else obj ++ [(k, v)]

/-- Number coercion as performed by JS arithmetic and `Math.max` /
`Math.floor`: `undefined` coerces to NaN.  (A string never reaches this
coercion on the modelled paths.) -/
def toNum : JSVal → Option ℚ
  | .num v => v
  | _ => none

/-- NaN-propagating subtraction. -/
def jsSub (a b : Option ℚ) : Option ℚ :=
  match a, b with
  | some x, some y => some (x - y)
  | _, _ => none

/-- NaN-propagating `Math.max`. -/
def jsMax (a b : Option ℚ) : Option ℚ :=
  match a, b with
  | some x, some y => some (max x y)
  | _, _ => none

/-- NaN-propagating `Math.floor`. -/
def jsFloorNum : Option ℚ → Option ℚ
  | some q => some (⌊q⌋ : ℚ)
  | none => none

/-- Effect of `floorify` (lines 505-511) on one field: the `typeof` guard
keeps strings and `undefined` unchanged, and `Math.floor(NaN)` is NaN. -/
def floorifyVal : JSVal → JSVal
  | .num (some q) => .num (some (⌊q⌋ : ℚ))
  | v => v

/-- `floorify` (lines 505-511): floor every number field in place. -/
def floorify (obj : JSObj) : JSObj :=
  obj.map fun kv => (kv.1, floorifyVal kv.2)

/-- `removeNan` (lines 513-520): delete every field holding NaN. -/
def removeNan (obj : JSObj) : JSObj :=
  obj.filter fun kv => kv.2 != JSVal.num none

/-- `sanitize` (lines 522-525): `floorify` then `removeNan`, in place. -/
def sanitize (obj : JSObj) : JSObj := removeNan (floorify obj)

/-- Mask rect construction (lines 296-301), reading the rect object after
`sanitize(rect)` has mutated it: `x`/`y` go through
`Math.floor(Math.max(rect.x, 0))`, `width`/`height` are copied as-is. -/
def maskRectOf (rect : JSObj) : JSObj :=
  [("width", getVal rect "width"),
   ("height", getVal rect "height"),
   ("x", .num (jsFloorNum (jsMax (toNum (getVal rect "x")) (some 0)))),
   ("y", .num (jsFloorNum (jsMax (toNum (getVal rect "y")) (some 0))))]

/-- Android status-bar compensation (lines 181-183):
`rect.y -= StatusBar.currentHeight ?? 0`, mutating the caller's object. -/
def androidAdjust (adjustY : Bool) (statusBarHeight : ℚ) (rect : JSObj) :
    JSObj :=
  if adjustY then
    setVal rect "y"
      (.num (jsSub (toNum (getVal rect "y")) (some statusBarHeight)))
  else rect

/-- The `_animateMove` pipeline as it acts on the caller's rect object: the
snapshot copy `{...rect}` is taken first (line 176), then the Android
adjustment mutates `rect.y`, then `sanitize(rect)` floors the fields and
deletes NaN fields in place (line 282), and finally the mask rect is built
from the mutated object (lines 296-301).  Returns (snapshot, final rect
value, mask rect). -/
def animateMoveRectEffect (adjustY : Bool) (statusBarHeight : ℚ)
    (rect : JSObj) : JSObj × JSObj × JSObj :=
  let snap := rect
  let rect1 := androidAdjust adjustY statusBarHeight rect
  let rect2 := sanitize rect1
  (snap, rect2, maskRectOf rect2)

theorem objGet_floorify (obj : JSObj) (k : String) :
    objGet (floorify obj) k = (objGet obj k).map floorifyVal := by
  induction obj with
  | nil => rfl
  | cons kv tl ih =>
    simp only [floorify, List.map_cons, objGet]
    split
    · rfl
    · simpa [floorify] using ih

theorem objGet_eq_none_of_not_mem (obj : JSObj) (k : String)
    (h : k ∉ obj.map Prod.fst) : objGet obj k = none := by
  induction obj with
  | nil => rfl
  | cons kv tl ih =>
    simp only [List.map_cons, List.mem_cons] at h
    push_neg at h
    simp only [objGet]
    rw [if_neg (fun he => h.1 he.symm)]
    exact ih h.2

theorem objGet_removeNan_of_ne (obj : JSObj) (k : String) (v : JSVal)
    (h : objGet obj k = some v) (hv : v ≠ JSVal.num none) :
    objGet (removeNan obj) k = some v := by
  induction obj with
  | nil => simp [objGet] at h
  | cons kv tl ih =>
    simp only [objGet] at h
    by_cases hk : kv.1 = k
    · rw [if_pos hk] at h
      obtain rfl : kv.2 = v := Option.some.inj h
      have : (kv.2 != JSVal.num none) = true := bne_iff_ne.mpr hv
      simp only [removeNan, List.filter_cons, this, if_true]
      simp [objGet, hk]
    · rw [if_neg hk] at h
      simp only [removeNan, List.filter_cons]
      split
      · simpa [objGet, hk] using ih h
      · exact ih h

theorem objGet_removeNan_of_none (obj : JSObj) (k : String)
    (h : objGet obj k = none) : objGet (removeNan obj) k = none := by
  induction obj with
  | nil => rfl
  | cons kv tl ih =>
    simp only [objGet] at h
    by_cases hk : kv.1 = k
    · rw [if_pos hk] at h
      exact absurd h (by simp)
    · rw [if_neg hk] at h
      simp only [removeNan, List.filter_cons]
      split
      · simpa [objGet, hk] using ih h
      · exact ih h

theorem objGet_sanitize_num (obj : JSObj) (k : String) (q : ℚ)
    (h : objGet obj k = some (JSVal.num (some q))) :
    objGet (sanitize obj) k = some (JSVal.num (some (⌊q⌋ : ℚ))) := by
  have h1 : objGet (floorify obj) k = some (JSVal.num (some (⌊q⌋ : ℚ))) := by
    rw [objGet_floorify, h]
    rfl
  exact objGet_removeNan_of_ne _ _ _ h1 (by simp)

theorem objGet_sanitize_nan (obj : JSObj) (k : String)
    (hnd : (obj.map Prod.fst).Nodup)
    (h : objGet obj k = some (JSVal.num none)) :
    objGet (sanitize obj) k = none := by
  induction obj with
  | nil => simp [objGet] at h
  | cons kv tl ih =>
    simp only [List.map_cons, List.nodup_cons] at hnd
    obtain ⟨hk1, hnd'⟩ := hnd
    simp only [objGet] at h
    by_cases hk : kv.1 = k
    · rw [if_pos hk] at h
      have hv : kv.2 = JSVal.num none := Option.some.inj h
      have htl : objGet tl k = none := by
        apply objGet_eq_none_of_not_mem
        rw [← hk]
        exact hk1
      have h2 : objGet (removeNan (floorify tl)) k = none :=
        objGet_removeNan_of_none _ _ (by rw [objGet_floorify, htl]; rfl)
      have hdrop : sanitize (kv :: tl) = sanitize tl := by
        simp [sanitize, floorify, removeNan, hv, floorifyVal]
      rw [hdrop]
      exact h2
    · rw [if_neg hk] at h
      have ihh : objGet (sanitize tl) k = none := ih hnd' h
      simp only [sanitize, floorify, List.map_cons, removeNan,
        List.filter_cons]
      split
      · simp only [objGet]
        rw [if_neg hk]
        exact ihh
      · exact ihh

theorem objGet_replaceKey (obj : JSObj) (k : String) (v : JSVal) :
    objGet (obj.map fun kv => if kv.1 = k then (k, v) else kv) k =
      (objGet obj k).map fun _ => v := by
  induction obj with
  | nil => rfl
  | cons kv tl ih =>
    simp only [List.map_cons, objGet]
    by_cases hk : kv.1 = k
    · simp [hk]
    · simpa [hk] using ih

theorem sanitize_field_sound (obj : JSObj) (k : String) (v : JSVal)
    (h : (k, v) ∈ sanitize obj) :
    v ≠ JSVal.num none ∧
      ∀ q, v = JSVal.num (some q) → ∃ n : ℤ, q = (n : ℚ) := by
  simp only [sanitize, removeNan, List.mem_filter] at h
  obtain ⟨hmem, hpred⟩ := h
  refine ⟨bne_iff_ne.mp hpred, ?_⟩
  intro q hq
  simp only [floorify, List.mem_map] at hmem
  obtain ⟨⟨k₀, w⟩, _, he⟩ := hmem
  have hv : floorifyVal w = v := congrArg Prod.snd he
  cases w with
  | num o =>
    cases o with
    | none =>
      rw [hq] at hv
      simp [floorifyVal] at hv
    | some q₀ =>
      rw [hq] at hv
      have : (⌊q₀⌋ : ℚ) = q := by simpa [floorifyVal] using hv
      exact ⟨⌊q₀⌋, this.symm⟩
  | str s =>
    rw [hq] at hv
    exact absurd hv (by simp [floorifyVal])
  | jsUndefined =>
    rw [hq] at hv
    exact absurd hv (by simp [floorifyVal])

theorem getVal_maskRectOf_x (rect : JSObj) :
    getVal (maskRectOf rect) "x" =
      JSVal.num (jsFloorNum (jsMax (toNum (getVal rect "x")) (some 0))) := by
  simp [maskRectOf, getVal, objGet]

/-- Rect object whose `x` coordinate is NaN (with ordinary `y`, `width`,
`height`), as produced by a failed native measurement. -/
def nanXRect : JSObj :=
  [("x", JSVal.num none), ("y", JSVal.num (some 10)),
   ("width", JSVal.num (some 20)), ("height", JSVal.num (some 20))]

/-- C5 counterexample: feeding a rect whose `x` is NaN through the
`_animateMove` pipeline, `sanitize(rect)` deletes the `x` field, but the
mask rect then computes `Math.floor(Math.max(rect.x, 0))` on the deleted
field — `Math.max(undefined, 0)` is NaN — so the mask rect handed to the
mask renderer carries `x = NaN`: a NaN does reach a consumer, refuting the
claim as stated. -/
theorem c5_counterexample :
    getVal (animateMoveRectEffect false 0 nanXRect).2.2 "x" =
      JSVal.num none := by decide

/-- C5 amended (proved): `sanitize` removes every NaN-valued numeric field
from its record instead of emitting it and floors every remaining numeric
field to an integer — this holds for the tooltip, arrow and echoed rect
records, which are emitted through `sanitize` — but the mask rect is
exempt: its `x` field is recomputed after sanitization from the
possibly-deleted rect field, so when the input rect's `x` was NaN the mask
rect's `x` is NaN (reaching the mask renderer). -/
theorem c5_sanitize_amended :
    (∀ obj : JSObj, ∀ k v, (k, v) ∈ sanitize obj →
        v ≠ JSVal.num none ∧
          ∀ q, v = JSVal.num (some q) → ∃ n : ℤ, q = (n : ℚ)) ∧
      ∀ rect : JSObj, (rect.map Prod.fst).Nodup →
        objGet rect "x" = some (JSVal.num none) →
          getVal (maskRectOf (sanitize rect)) "x" = JSVal.num none := by
  constructor
  · exact fun obj k v h => sanitize_field_sound obj k v h
  · intro rect hnd hx
    have hs : objGet (sanitize rect) "x" = none :=
      objGet_sanitize_nan rect "x" hnd hx
    rw [getVal_maskRectOf_x]
    simp [getVal, hs, toNum, jsMax, jsFloorNum]

/-- C5 amended, witness: on `nanXRect`, the sanitized record keeps the
floored `y` field, and the mask rect's `x` is NaN. -/
theorem c5_sanitize_amended_witness :
    ((JSVal.num (some 10) ≠ JSVal.num none ∧
        ∀ q, JSVal.num (some 10) = JSVal.num (some q) →
          ∃ n : ℤ, q = (n : ℚ)) ∧
      getVal (maskRectOf (sanitize nanXRect)) "x" = JSVal.num none) :=
  ⟨c5_sanitize_amended.1 nanXRect "y" (JSVal.num (some 10)) (by decide),
   c5_sanitize_amended.2 nanXRect (by decide) (by decide)⟩

/-- Rect object with finite coordinates used as a concrete input. -/
def sampleRect : JSObj :=
  [("x", JSVal.num (some 100)), ("y", JSVal.num (some 50)),
   ("width", JSVal.num (some 80)), ("height", JSVal.num (some 40))]

/-- C10 (confirmed): `_animateMove` mutates the caller's rect object in
place.  On Android with status-bar compensation the status-bar height is
subtracted from `rect.y` before computing; `sanitize(rect)` then floors
every numeric field of that same object (the final `y` is
`⌊y - statusBarHeight⌋`) and deletes any NaN field, so no remaining field
is NaN; only the snapshot stored in `currentRectRef` — copied before any
mutation — equals the value the caller passed in. -/
theorem c10_rect_mutation (statusBarHeight : ℚ) (rect : JSObj) (qy : ℚ)
    (hy : objGet rect "y" = some (JSVal.num (some qy))) :
    (animateMoveRectEffect true statusBarHeight rect).1 = rect ∧
      getVal (animateMoveRectEffect true statusBarHeight rect).2.1 "y" =
        JSVal.num (some (⌊qy - statusBarHeight⌋ : ℚ)) ∧
      ∀ k v, (k, v) ∈ (animateMoveRectEffect true statusBarHeight rect).2.1 →
        v ≠ JSVal.num none := by
  refine ⟨rfl, ?_, ?_⟩
  · have hadj : objGet (androidAdjust true statusBarHeight rect) "y" =
        some (JSVal.num (some (qy - statusBarHeight))) := by
      simp only [androidAdjust, if_true, setVal, hy, Option.isSome_some,
        if_pos]
      rw [objGet_replaceKey, hy]
      simp [getVal, hy, toNum, jsSub]
    have hfin := objGet_sanitize_num _ "y" _ hadj
    simp only [animateMoveRectEffect]
    simp [getVal, hfin]
  · intro k v hv
    simp only [animateMoveRectEffect] at hv
    exact (sanitize_field_sound _ k v hv).1

/-- C10 witness: on a concrete rect with `y = 50` and status-bar height 24,
the snapshot equals the original object while the caller's rect ends with
`y = 26`. -/
theorem c10_rect_mutation_witness :
    (animateMoveRectEffect true 24 sampleRect).1 = sampleRect ∧
      getVal (animateMoveRectEffect true 24 sampleRect).2.1 "y" =
        JSVal.num (some (⌊(50 : ℚ) - 24⌋ : ℚ)) :=
  ⟨(c10_rect_mutation 24 sampleRect 50 (by decide)).1,
   (c10_rect_mutation 24 sampleRect 50 (by decide)).2.1⟩

/-- Events emitted through the copilot event bus (`mitt`). -/
inductive TEvent where
  | start
  | stop
  | stepChange : Option String → TEvent
  | stepMove
deriving DecidableEq

/-- Tour Controller state: the `isAnimating` re-entrancy flag, visibility,
the current step, the scheduled `moveModalToStep` completion (the
`setTimeout` callback of CopilotProvider lines 128-136), and the emitted
event trace. -/
structure TourState where
  isAnimating : Bool
  visible : Bool
  currentStep : Option String
  pendingMove : Option String
  events : List TEvent
deriving DecidableEq

/-- Synchronous part of `setCurrentStep` (CopilotProvider lines 104-141):
return unchanged while a transition is in flight; otherwise set the flag,
update the step, emit `stepChange`, and — when `move` holds and a step was
resolved — schedule the move whose completion callback will clear the
flag.  When no step was resolved, no move is scheduled and nothing ever
clears the flag. -/
def setCurrentStepOp (step : Option String) (move : Bool) (s : TourState) :
    TourState :=
  if s.isAnimating then s
  else
    let s' := { s with isAnimating := true, currentStep := step,
                       events := s.events ++ [TEvent.stepChange step] }
    if move && step.isSome then { s' with pendingMove := step } else s'

/-- Completion of the scheduled `moveModalToStep` (lines 130-133): clears
`isAnimating` and emits `stepMove`.  No-op when no move is pending. -/
def completePendingMove (s : TourState) : TourState :=
  match s.pendingMove with
  | some _ =>
    { s with pendingMove := none, isAnimating := false,
             events := s.events ++ [TEvent.stepMove] }
  | none => s

/-- `next` / `prev` / `goToNth` (lines 189-205): drop the call while a
transition is in flight, otherwise transition to the step resolved from the
registry (passed as a parameter; the step registry is an external
collaborator). -/
def navOp (resolved : Option String) (s : TourState) : TourState :=
  if s.isAnimating then s else setCurrentStepOp resolved true s

/-- `stop` (lines 183-187): clear visibility, clear the flag
unconditionally, emit `stop`. -/
def stopOp (s : TourState) : TourState :=
  { s with visible := false, isAnimating := false,
           events := s.events ++ [TEvent.stop] }

/-- Initial controller state. -/
def initTourState : TourState :=
  { isAnimating := false, visible := false, currentStep := none,
    pendingMove := none, events := [] }

/-- C3 evidence (code bug): a navigation call whose step resolution yields
no step — `setCurrentStep(undefined)` via `next()` at the last step or
`goToNth` out of range — sets `isAnimating` and returns without scheduling
any move, so no exit path ever resets the flag: it stays `true`, no move is
pending, completing pending moves changes nothing, and every later
navigation call is dropped forever. -/
theorem c3_no_step_leaves_flag_set :
    (navOp none initTourState).isAnimating = true ∧
      (navOp none initTourState).pendingMove = none ∧
      completePendingMove (navOp none initTourState) =
        navOp none initTourState ∧
      navOp (some "nextStep") (navOp none initTourState) =
        navOp none initTourState := by decide

/-- C4 (confirmed): a second `next()`/`prev()`/`goTo(n)` invoked before the
first invocation's transition completed is dropped as a no-op (the state is
unchanged, so nothing is queued), and the pair produces exactly one
`stepChange` and exactly one `stepMove` event; the completion also clears
the flag. -/
theorem c4_reentrant_nav_dropped (s : TourState) (b : String)
    (c : Option String) (hA : s.isAnimating = false) :
    navOp c (navOp (some b) s) = navOp (some b) s ∧
      (completePendingMove (navOp (some b) s)).events =
        s.events ++ [TEvent.stepChange (some b), TEvent.stepMove] ∧
      (completePendingMove (navOp (some b) s)).isAnimating = false := by
  have h1 : navOp (some b) s =
      { s with isAnimating := true, currentStep := some b,
               pendingMove := some b,
               events := s.events ++ [TEvent.stepChange (some b)] } := by
    simp [navOp, setCurrentStepOp, hA]
  refine ⟨?_, ?_, ?_⟩ <;> rw [h1] <;> simp [navOp, completePendingMove]

/-- C4 witness: concrete run from the initial state. -/
theorem c4_reentrant_nav_dropped_witness :
    navOp (some "b") (navOp (some "a") initTourState) =
        navOp (some "a") initTourState ∧
      (completePendingMove (navOp (some "a") initTourState)).events =
        initTourState.events ++
          [TEvent.stepChange (some "a"), TEvent.stepMove] ∧
      (completePendingMove (navOp (some "a") initTourState)).isAnimating =
        false :=
  c4_reentrant_nav_dropped initTourState "a" (some "b") rfl

/-- Retry bound of `start` (CopilotProvider line 53). -/
def MAX_START_TRIES : ℕ := 120

/-- State touched by the `start` retry loop: the `startTries` counter, the
visibility flag, and the emitted events. -/
structure StartState where
  startTries : ℕ
  visible : Bool
  events : List TEvent
deriving DecidableEq

/-- Outcome of one `start` invocation in the never-registered case: either
another attempt is scheduled for the next animation frame, or the call
returned (aborted). -/
inductive StartOutcome where
  | scheduled : StartState → StartOutcome
  | aborted : StartState → StartOutcome
deriving DecidableEq

/-- State carried by either outcome. -/
def StartOutcome.state : StartOutcome → StartState
  | .scheduled s => s
  | .aborted s => s

/-- One `start` invocation when the requested step is not (and never
becomes) registered (lines 149-160): past the bound the call resets the
counter and returns without emitting anything or touching visibility;
otherwise it increments the counter and schedules another attempt via
`requestAnimationFrame`.  No exception is thrown on either path. -/
def startMissingOnce (s : StartState) : StartOutcome :=
  if s.startTries > MAX_START_TRIES then
    .aborted { s with startTries := 0 }
  else
    .scheduled { s with startTries := s.startTries + 1 }

/-- Runs the retry loop for at most `fuel` invocations; `some` is the state
at abort, `none` means the loop is still scheduling frames after `fuel`
invocations. -/
def startMissingRun (fuel : ℕ) (s : StartState) : Option StartState :=
  match fuel with
  | 0 => none
  | n + 1 =>
    match startMissingOnce s with
    | .aborted s' => some s'
    | .scheduled s' => startMissingRun n s'

theorem startMissingRun_steps (n : ℕ) :
    ∀ j, j + n = 122 → j ≤ 121 → ∀ (v : Bool) (e : List TEvent),
      startMissingRun n ⟨j, v, e⟩ = some ⟨0, v, e⟩ := by
  induction n with
  | zero =>
    intro j h1 h2 v e
    omega
  | succ m ih =>
    intro j h1 h2 v e
    by_cases hgt : j > MAX_START_TRIES
    · have hm : m = 0 := by
        simp only [MAX_START_TRIES] at hgt
        omega
      subst hm
      simp [startMissingRun, startMissingOnce, hgt]
    · simp only [startMissingRun, startMissingOnce, if_neg hgt]
      refine ih (j + 1) (by omega) ?_ v e
      simp only [MAX_START_TRIES] at hgt
      omega

theorem startMissingRun_short (n : ℕ) :
    ∀ j, n + j ≤ 121 → ∀ (v : Bool) (e : List TEvent),
      startMissingRun n ⟨j, v, e⟩ = none := by
  induction n with
  | zero =>
    intro j h v e
    rfl
  | succ m ih =>
    intro j h v e
    have hj : ¬ j > MAX_START_TRIES := by
      simp only [MAX_START_TRIES]
      omega
    simp only [startMissingRun, startMissingOnce, if_neg hj]
    exact ih (j + 1) (by omega) v e

/-- C6 (confirmed): starting with a step name that never registers retries
once per animation frame, bounded by `MAX_START_TRIES = 120`: the run
aborts at the first invocation whose counter exceeds the bound (the 122nd
invocation overall — the counter reaches 121 before the strict `>` guard
fires — so with any smaller fuel the loop is still scheduling), and at the
abort the counter is reset to 0 while visibility and the event trace are
exactly as they started: the tour never becomes visible and nothing is
raised or emitted.  Each single invocation also preserves visibility and
the trace. -/
theorem c6_start_retry_bounded (v : Bool) (e : List TEvent) :
    startMissingRun (MAX_START_TRIES + 2) ⟨0, v, e⟩ = some ⟨0, v, e⟩ ∧
      (∀ n, n ≤ MAX_START_TRIES + 1 →
        startMissingRun n ⟨0, v, e⟩ = none) ∧
      ∀ s : StartState, (startMissingOnce s).state.visible = s.visible ∧
        (startMissingOnce s).state.events = s.events := by
  refine ⟨startMissingRun_steps _ 0 (by norm_num [MAX_START_TRIES])
    (by omega) v e, ?_, ?_⟩
  · intro n hn
    refine startMissingRun_short n 0 ?_ v e
    simp only [MAX_START_TRIES] at hn
    omega
  · intro s
    unfold startMissingOnce
    split <;> simp [StartOutcome.state]

/-- C6 witness: from the initial state, fuel 121 is not enough to observe
the abort, fuel 122 is, and the final state has counter 0 and the tour not
visible. -/
theorem c6_start_retry_bounded_witness :
    startMissingRun 122 ⟨0, false, []⟩ = some ⟨0, false, []⟩ ∧
      startMissingRun 121 ⟨0, false, []⟩ = none :=
  ⟨(c6_start_retry_bounded false []).1,
   (c6_start_retry_bounded false []).2.1 121
     (by norm_num [MAX_START_TRIES])⟩

/-- Scroll offset computed in the `measureLayout` callback of
`setCurrentStep` (CopilotProvider lines 117-123):
`const yOffset = y > 0 ? y - h / 2 : 0`. -/
def scrollYOffset (y h : ℚ) : ℚ := if y > 0 then y - h / 2 else 0

/-- C8 counterexample: at `targetY = 4`, `targetHeight = 20` the code
requests the negative offset `-6`, while `max(0, targetY - targetHeight/2)`
is `0`: the claimed formula does not match the code. -/
theorem c8_counterexample :
    scrollYOffset 4 20 = -6 ∧ max (0 : ℚ) (4 - 20 / 2) = 0 ∧
      scrollYOffset 4 20 ≠ max (0 : ℚ) (4 - 20 / 2) := by
  have h1 : scrollYOffset 4 20 = -6 := by norm_num [scrollYOffset]
  have h2 : max (0 : ℚ) (4 - 20 / 2) = 0 := max_eq_left (by norm_num)
  refine ⟨h1, h2, ?_⟩
  rw [h1, h2]
  norm_num

/-- C8 amended (proved): for every registered scrollable ancestor and
target layout `(targetY, targetHeight)` with `targetHeight ≥ 0`, the
requested non-blocking scroll offset is `targetY - targetHeight/2` when
`targetY > 0`, else `0`.  This agrees with `max(0, targetY -
targetHeight/2)` except when `0 < targetY < targetHeight/2`, where the code
requests the negative value `targetY - targetHeight/2`. -/
theorem c8_scroll_offset_amended (y h : ℚ) (hh : 0 ≤ h) :
    (0 < y → y < h / 2 →
      scrollYOffset y h = y - h / 2 ∧ scrollYOffset y h < 0) ∧
      (¬(0 < y ∧ y < h / 2) →
        scrollYOffset y h = max 0 (y - h / 2)) := by
  constructor
  · intro hy hlt
    rw [scrollYOffset, if_pos hy]
    exact ⟨rfl, by linarith⟩
  · intro hn
    rw [scrollYOffset]
    by_cases hy : y > 0
    · rw [if_pos hy]
      have hge : ¬ y < h / 2 := fun hc => hn ⟨hy, hc⟩
      exact (max_eq_right (by linarith)).symm
    · rw [if_neg hy]
      push_neg at hy
      exact (max_eq_left (by linarith)).symm

/-- C8 amended, witness: at `(4, 20)` the code's offset is `4 - 10 = -6`,
which is negative. -/
theorem c8_scroll_offset_amended_witness :
    scrollYOffset 4 20 = 4 - 20 / 2 ∧ scrollYOffset 4 20 < 0 :=
  (c8_scroll_offset_amended 4 20 (by norm_num)).1 (by norm_num)
    (by norm_num)
